import Mathlib

/-!
Verification of the p2p-live trip-planning and route-geometry core.

This file shallowly embeds the geometry/planning layer of the repository:
geo primitives and nearest-stop search (`src/utils/geo.ts`), the journey
composer `calculateJourney` (`src/utils/journey.ts`), the route
interpolator (`src/utils/routeInterpolation.ts`), the polyline slicer and
map-source adapter (`src/utils/journeyMapSources.ts`), and the
recent-searches store (`src/utils/recentSearches.ts`).

JavaScript numbers are modelled by exact rationals (`ℚ`), integer-valued
quantities (`Math.ceil` results, millisecond timestamps) by `ℤ`.  The one
transcendental ingredient — the Haversine great-circle distance, built
from `sin`/`cos`/`atan2` — has no computable rational counterpart, so it
is passed to each embedded function as an explicit distance-function
parameter (`dist`, `hav`, `brg`); every property proved here holds for an
arbitrary such function, hence in particular for the Haversine distance
the source plugs in.  Fallible code (`throw`) is modelled with `Except`.
-/

namespace P2PLive

/-- `Coordinate` from `src/types.ts`: WGS84 degrees. -/
structure Coordinate where
  lat : ℚ
  lon : ℚ
  deriving DecidableEq

/-- `Stop` from `src/types.ts`. -/
structure Stop where
  id : String
  name : String
  lat : ℚ
  lon : ℚ
  deriving DecidableEq

/-- View a stop as a coordinate (the source passes the stop object itself
to `getDistanceMeters`, which reads only `lat`/`lon`). -/
def Stop.coord (s : Stop) : Coordinate := ⟨s.lat, s.lon⟩

/-- `Destination` from `src/types.ts`. -/
structure Destination where
  id : String
  name : String
  lat : ℚ
  lon : ℚ
  address : Option String
  deriving DecidableEq

/-- View a destination as a coordinate. -/
def Destination.coord (d : Destination) : Coordinate := ⟨d.lat, d.lon⟩

/-- `WALKING_SPEED_MPS = 1.4` from `geo.ts`. -/
def WALKING_SPEED_MPS : ℚ := 1.4

/-- `getWalkTimeMinutes` from `geo.ts`: `Math.ceil(d / 1.4 / 60)`. -/
def getWalkTimeMinutes (distanceMeters : ℚ) : ℤ :=
  ⌈distanceMeters / WALKING_SPEED_MPS / 60⌉

/-- The scanning loop of `findNearestStop` (`for (let i = 1; ...)`):
carries the current best stop and its distance, strict `<` update. -/
def findNearestAux (dist : Coordinate → Coordinate → ℚ) (loc : Coordinate) :
    Stop → ℚ → List Stop → Stop
  | nearest, _, [] => nearest
  | nearest, minDist, s :: rest =>
    if dist loc s.coord < minDist then
      findNearestAux dist loc s (dist loc s.coord) rest
    else
      findNearestAux dist loc nearest minDist rest

/-- `findNearestStop` from `geo.ts`: `null` on an empty list, otherwise a
linear scan starting from `stops[0]` with strict `<` comparison. -/
def findNearestStop (dist : Coordinate → Coordinate → ℚ) (loc : Coordinate) :
    List Stop → Option Stop
  | [] => none
  | s :: rest => some (findNearestAux dist loc s (dist loc s.coord) rest)

/-- `SegmentType` from `src/types.ts`. -/
inductive SegmentType where
  | walk
  | bus
  deriving DecidableEq

/-- `JourneySegment` from `src/types.ts`; the optional bus-specific fields
are `Option`s. -/
structure JourneySegment where
  type : SegmentType
  fromName : String
  toName : String
  fromCoords : Coordinate
  toCoords : Coordinate
  durationMin : ℤ
  distanceMeters : ℚ
  instruction : String
  routeId : Option String
  routeName : Option String
  stopsCount : Option ℕ
  waitTimeMin : Option ℤ
  deriving DecidableEq

/-- `Journey` from `src/types.ts`; `startTime`/`arrivalTime` are
milliseconds since the epoch (`Date.getTime()`). -/
structure Journey where
  id : String
  destination : Destination
  totalDurationMin : ℤ
  segments : List JourneySegment
  startTime : ℤ
  arrivalTime : ℤ
  deriving DecidableEq

/-- The segment list built by `calculateJourney` (`journey.ts` lines
65–130) once both nearest stops are known: push the walk-to-origin-stop
segment, then either rewrite it into a single direct walk
(`originStop.id === destStop.id || distBus < 200`) or append the bus
segment and the final walk segment. -/
def journeySegments (dist : Coordinate → Coordinate → ℚ)
    (originStop destStop : Stop) (userLocation : Coordinate)
    (destination : Destination) : List JourneySegment :=
  let distToOrigin := dist userLocation originStop.coord
  let timeToOrigin := getWalkTimeMinutes distToOrigin
  let walkSeg1 : JourneySegment :=
    { type := SegmentType.walk
      fromName := "Current Location"
      toName := originStop.name
      fromCoords := userLocation
      toCoords := originStop.coord
      distanceMeters := distToOrigin
      durationMin := timeToOrigin
      instruction := "Walk to " ++ originStop.name
      routeId := none, routeName := none, stopsCount := none
      waitTimeMin := none }
  let distBus := dist originStop.coord destStop.coord
  if originStop.id = destStop.id ∨ distBus < 200 then
    [{ walkSeg1 with
        toName := destination.name
        toCoords := destination.coord
        distanceMeters := dist userLocation destination.coord
        durationMin := getWalkTimeMinutes (dist userLocation destination.coord)
        instruction := "Walk to " ++ destination.name }]
  else
    let busDuration := ⌈distBus / 10 / 60⌉ + 5
    let waitTime : ℤ := 5
    let distToFinal := dist destStop.coord destination.coord
    let timeToFinal := getWalkTimeMinutes distToFinal
    [walkSeg1,
     { type := SegmentType.bus
       fromName := originStop.name
       toName := destStop.name
       fromCoords := originStop.coord
       toCoords := destStop.coord
       distanceMeters := distBus
       durationMin := busDuration
       instruction := "Ride P2P Express"
       routeId := some "p2p-express"
       routeName := some "P2P Express"
       stopsCount := some 3
       waitTimeMin := some waitTime },
     { type := SegmentType.walk
       fromName := destStop.name
       toName := destination.name
       fromCoords := destStop.coord
       toCoords := destination.coord
       distanceMeters := distToFinal
       durationMin := timeToFinal
       instruction := "Walk to " ++ destination.name
       routeId := none, routeName := none, stopsCount := none
       waitTimeMin := none }]

/-- The tail of `calculateJourney` (`journey.ts` lines 132–142): total
duration as the `reduce` over segments, arrival time
`now.getTime() + totalDuration * 60000`. -/
def composeJourney (dist : Coordinate → Coordinate → ℚ)
    (originStop destStop : Stop) (userLocation : Coordinate)
    (destination : Destination) (now : ℤ) : Journey :=
  let segments := journeySegments dist originStop destStop userLocation destination
  let totalDuration :=
    segments.foldl (fun acc seg => acc + seg.durationMin + seg.waitTimeMin.getD 0) 0
  { id := "journey-" ++ toString now
    destination := destination
    totalDurationMin := totalDuration
    segments := segments
    startTime := now
    arrivalTime := now + totalDuration * 60000 }

/-- `calculateJourney` from `journey.ts`.  The stop list (the source reads
the module-level `STOPS`) and the distance function (the source calls the
Haversine `getDistanceMeters`) are parameters; `now` stands for both
`new Date()` and `Date.now()`, taken at one tick.  The `throw` on a
missing nearest stop becomes `Except.error`. -/
def calculateJourney (dist : Coordinate → Coordinate → ℚ) (stops : List Stop)
    (userLocation : Coordinate) (destination : Destination) (now : ℤ) :
    Except String Journey :=
  match findNearestStop dist userLocation stops,
        findNearestStop dist destination.coord stops with
  | some originStop, some destStop =>
    Except.ok (composeJourney dist originStop destStop userLocation destination now)
  | _, _ => Except.error "Could not find transit stops"

/-- A concrete stop used to instantiate universally quantified theorems. -/
def sampleStop : Stop := ⟨"s1", "Stop One", 0, 0⟩

/-- A concrete destination used to instantiate universally quantified
theorems. -/
def sampleDest : Destination := ⟨"d1", "Dest", 0, 0, none⟩

/-- Successful journeys decompose into nearest stops plus `composeJourney`:
the inversion principle for `calculateJourney`. -/
theorem calculateJourney_ok_elim {dist : Coordinate → Coordinate → ℚ}
    {stops : List Stop} {loc : Coordinate} {destn : Destination} {now : ℤ}
    {j : Journey}
    (h : calculateJourney dist stops loc destn now = Except.ok j) :
    ∃ o t, findNearestStop dist loc stops = some o ∧
      findNearestStop dist destn.coord stops = some t ∧
      j = composeJourney dist o t loc destn now := by
  unfold calculateJourney at h
  cases ho : findNearestStop dist loc stops with
  | none => rw [ho] at h; exact absurd h (by simp)
  | some o =>
    cases ht : findNearestStop dist destn.coord stops with
    | none => rw [ho, ht] at h; exact absurd h (by simp)
    | some t =>
      rw [ho, ht] at h
      simp only [Except.ok.injEq] at h
      exact ⟨o, t, rfl, rfl, h.symm⟩

/-- The `reduce` in `calculateJourney` is the sum of per-segment duration
plus wait time. -/
theorem foldl_duration (l : List JourneySegment) (a : ℤ) :
    l.foldl (fun acc seg => acc + seg.durationMin + seg.waitTimeMin.getD 0) a =
      a + (l.map fun s => s.durationMin + s.waitTimeMin.getD 0).sum := by
  induction l generalizing a with
  | nil => simp
  | cons s rest ih => simp only [List.foldl_cons, List.map_cons, List.sum_cons, ih]; ring

/-- C1: walk-preferred collapse — when the nearest stops to origin and
destination are the same stop, or lie less than 200 m apart, the computed
journey consists of exactly one `walk` segment whose endpoints are the raw
origin and the raw destination coordinates. -/
theorem calculateJourney_walk_collapse
    (dist : Coordinate → Coordinate → ℚ) (stops : List Stop)
    (loc : Coordinate) (destn : Destination) (now : ℤ) (s₁ s₂ : Stop)
    (h₁ : findNearestStop dist loc stops = some s₁)
    (h₂ : findNearestStop dist destn.coord stops = some s₂)
    (h₃ : s₁ = s₂ ∨ dist s₁.coord s₂.coord < 200) :
    (calculateJourney dist stops loc destn now).map
        (fun j => j.segments.map fun s => (s.type, s.fromCoords, s.toCoords)) =
      Except.ok [(SegmentType.walk, loc, destn.coord)] := by
  have hcond : s₁.id = s₂.id ∨ dist s₁.coord s₂.coord < 200 := by
    rcases h₃ with rfl | h
    · exact Or.inl rfl
    · exact Or.inr h
  unfold calculateJourney
  rw [h₁, h₂]
  simp only [Except.map, composeJourney, journeySegments]
  rw [if_pos hcond]
  simp

/-- Witness for C1: a one-stop network with the all-zero distance
function, so origin stop and destination stop coincide. -/
theorem calculateJourney_walk_collapse_witness :
    (calculateJourney (fun _ _ => 0) [sampleStop] ⟨0, 0⟩ sampleDest 0).map
        (fun j => j.segments.map fun s => (s.type, s.fromCoords, s.toCoords)) =
      Except.ok [(SegmentType.walk, ⟨0, 0⟩, sampleDest.coord)] :=
  calculateJourney_walk_collapse (fun _ _ => 0) [sampleStop] ⟨0, 0⟩ sampleDest 0
    sampleStop sampleStop rfl rfl (Or.inl rfl)

/-- C2: journey segment continuity — in every journey that
`calculateJourney` returns, each segment's `toCoords` equal the next
segment's `fromCoords`. -/
theorem calculateJourney_segment_continuity
    (dist : Coordinate → Coordinate → ℚ) (stops : List Stop)
    (loc : Coordinate) (destn : Destination) (now : ℤ) (j : Journey)
    (h : calculateJourney dist stops loc destn now = Except.ok j) :
    List.Chain' (fun a b => a.toCoords = b.fromCoords) j.segments := by
  obtain ⟨o, t, -, -, rfl⟩ := calculateJourney_ok_elim h
  by_cases hc : o.id = t.id ∨ dist o.coord t.coord < 200
  · simp [composeJourney, journeySegments, hc]
  · simp [composeJourney, journeySegments, hc, List.chain'_cons]

/-- Witness for C2 at the one-stop network with the all-zero distance. -/
theorem calculateJourney_segment_continuity_witness :
    List.Chain' (fun a b => a.toCoords = b.fromCoords)
      (composeJourney (fun _ _ => 0) sampleStop sampleStop ⟨0, 0⟩ sampleDest 0).segments :=
  calculateJourney_segment_continuity (fun _ _ => 0) [sampleStop] ⟨0, 0⟩
    sampleDest 0 _ rfl

/-- C3: journey duration additivity — `totalDurationMin` is the sum over
segments of `durationMin` plus `waitTimeMin` (0 when absent), and
`arrivalTime` is `startTime + totalDurationMin` minutes (in ms). -/
theorem calculateJourney_duration_additive
    (dist : Coordinate → Coordinate → ℚ) (stops : List Stop)
    (loc : Coordinate) (destn : Destination) (now : ℤ) (j : Journey)
    (h : calculateJourney dist stops loc destn now = Except.ok j) :
    j.totalDurationMin =
      (j.segments.map fun s => s.durationMin + s.waitTimeMin.getD 0).sum ∧
    j.arrivalTime = j.startTime + j.totalDurationMin * 60000 := by
  obtain ⟨o, t, -, -, rfl⟩ := calculateJourney_ok_elim h
  constructor
  · show (journeySegments dist o t loc destn).foldl _ 0 = _
    rw [foldl_duration]
    exact zero_add _
  · rfl

/-- Witness for C3 at the one-stop network with the all-zero distance. -/
theorem calculateJourney_duration_additive_witness :
    (composeJourney (fun _ _ => 0) sampleStop sampleStop ⟨0, 0⟩ sampleDest 0).totalDurationMin =
      ((composeJourney (fun _ _ => 0) sampleStop sampleStop ⟨0, 0⟩ sampleDest 0).segments.map
        fun s => s.durationMin + s.waitTimeMin.getD 0).sum ∧
    (composeJourney (fun _ _ => 0) sampleStop sampleStop ⟨0, 0⟩ sampleDest 0).arrivalTime =
      (composeJourney (fun _ _ => 0) sampleStop sampleStop ⟨0, 0⟩ sampleDest 0).startTime +
        (composeJourney (fun _ _ => 0) sampleStop sampleStop ⟨0, 0⟩ sampleDest 0).totalDurationMin * 60000 :=
  calculateJourney_duration_additive (fun _ _ => 0) [sampleStop] ⟨0, 0⟩
    sampleDest 0 _ rfl

/-- C4: an empty stop network is an explicit error — `findNearestStop`
returns `none` for no stops, `calculateJourney` then fails with the
message "Could not find transit stops", and for any non-empty stop list
that error never occurs. -/
theorem calculateJourney_empty_stops
    (dist : Coordinate → Coordinate → ℚ) (loc : Coordinate)
    (destn : Destination) (now : ℤ) :
    findNearestStop dist loc [] = none ∧
    calculateJourney dist [] loc destn now =
      Except.error "Could not find transit stops" ∧
    ∀ stops : List Stop, stops ≠ [] →
      calculateJourney dist stops loc destn now ≠
        Except.error "Could not find transit stops" := by
  refine ⟨rfl, rfl, ?_⟩
  intro stops hne
  cases stops with
  | nil => exact absurd rfl hne
  | cons s rest => simp [calculateJourney, findNearestStop]

/-- Witness for C4 at a concrete non-empty stop list. -/
theorem calculateJourney_empty_stops_witness :
    [sampleStop] ≠ [] ∧
    calculateJourney (fun _ _ => 0) [sampleStop] ⟨0, 0⟩ sampleDest 0 ≠
      Except.error "Could not find transit stops" :=
  ⟨by simp,
   (calculateJourney_empty_stops (fun _ _ => 0) ⟨0, 0⟩ sampleDest 0).2.2
     [sampleStop] (by simp)⟩

/-- C10: journey shape invariant — every journey `calculateJourney`
returns has segment types exactly `[walk]` or `[walk, bus, walk]`; in
particular a two-segment journey is never produced. -/
theorem calculateJourney_shape
    (dist : Coordinate → Coordinate → ℚ) (stops : List Stop)
    (loc : Coordinate) (destn : Destination) (now : ℤ) (j : Journey)
    (h : calculateJourney dist stops loc destn now = Except.ok j) :
    j.segments.map (fun s => s.type) = [SegmentType.walk] ∨
    j.segments.map (fun s => s.type) =
      [SegmentType.walk, SegmentType.bus, SegmentType.walk] := by
  obtain ⟨o, t, -, -, rfl⟩ := calculateJourney_ok_elim h
  by_cases hc : o.id = t.id ∨ dist o.coord t.coord < 200
  · left
    simp [composeJourney, journeySegments, hc]
  · right
    simp [composeJourney, journeySegments, hc]

/-- Witness for C10 at the one-stop network with the all-zero distance. -/
theorem calculateJourney_shape_witness :
    (composeJourney (fun _ _ => 0) sampleStop sampleStop ⟨0, 0⟩ sampleDest 0).segments.map
        (fun s => s.type) = [SegmentType.walk] ∨
    (composeJourney (fun _ _ => 0) sampleStop sampleStop ⟨0, 0⟩ sampleDest 0).segments.map
        (fun s => s.type) = [SegmentType.walk, SegmentType.bus, SegmentType.walk] :=
  calculateJourney_shape (fun _ _ => 0) [sampleStop] ⟨0, 0⟩ sampleDest 0 _ rfl

/-- `LngLat` from `routeInterpolation.ts`: a `[lon, lat]` pair. -/
abbrev LngLat := ℚ × ℚ

/-- The loop of `cumulativeDistances` (`for (let i = 1; ...)`): running
total of per-segment distances, one output entry per remaining vertex. -/
def cumulAux (hav : LngLat → LngLat → ℚ) : LngLat → ℚ → List LngLat → List ℚ
  | _, _, [] => []
  | prev, acc, x :: rest => (acc + hav prev x) :: cumulAux hav x (acc + hav prev x) rest

/-- `cumulativeDistances` from `routeInterpolation.ts`: cumulative segment
distances from the start, `cumul[0] = 0`, length = `coords.length` (for a
non-empty input; the JS code yields `[0]` on an empty input). -/
def cumulativeDistances (hav : LngLat → LngLat → ℚ) (coords : List LngLat) : List ℚ :=
  match coords with
  | [] => [0]
  | c0 :: rest => 0 :: cumulAux hav c0 0 rest

/-- JavaScript `Math.trunc`/the implicit truncation of the `%` operator:
round toward zero. -/
def jsTrunc (q : ℚ) : ℤ := if 0 ≤ q then ⌊q⌋ else ⌈q⌉

/-- JavaScript `%` on numbers (`fmod`): `x - L * trunc(x / L)`, so the
result carries the sign of `x`.  Exact for a non-zero modulus; JS yields
`NaN` for `x % 0`, which rationals cannot express (here `x / 0 = 0` makes
`jsMod x 0 = x`), so every theorem about the wrap carries a positive
total-length hypothesis. -/
def jsMod (x L : ℚ) : ℚ := x - L * (jsTrunc (x / L) : ℚ)

/-- The wrap at the top of `pointAt`/`bearingAt`:
`let d = dist % total; if (d < 0) d += total`. -/
def wrapDistance (L x : ℚ) : ℚ :=
  let d := jsMod x L
  if d < 0 then d + L else d

/-- The bracketing scan of `pointAt`:
`while (i < cumul.length - 1 && cumul[i + 1] < d) i++`. -/
def bracketIndex (d : ℚ) : List ℚ → ℕ
  | [] => 0
  | [_] => 0
  | _ :: b :: rest => if b < d then bracketIndex d (b :: rest) + 1 else 0

/-- Body of `pointAt` after the wrap: endpoint shortcuts, then linear
interpolation inside the bracketing segment. -/
def pointAtWrapped (cumul : List ℚ) (c : List LngLat) (L : ℚ) (d : ℚ) : LngLat :=
  if d ≤ 0 then c.headD (0, 0)
  else if L ≤ d then c.getLastD (0, 0)
  else
    let i := bracketIndex d cumul
    let t := (d - cumul.getD i 0) / (cumul.getD (i + 1) 0 - cumul.getD i 0)
    let p := c.getD i (0, 0)
    let q := c.getD (i + 1) (0, 0)
    (p.1 + t * (q.1 - p.1), p.2 + t * (q.2 - p.2))

/-- `pointAt` from `routeInterpolation.ts`: wrap the distance modulo the
total length (with negative-wrap correction), then interpolate. -/
def pointAtCore (cumul : List ℚ) (c : List LngLat) (L : ℚ) (distMeters : ℚ) : LngLat :=
  pointAtWrapped cumul c L (wrapDistance L distMeters)

/-- `bearingAt` from `routeInterpolation.ts`: same wrap and bracketing,
reading off the bearing (`brg` abstracts the spherical-bearing formula) of
the bracketing segment. -/
def bearingAtCore (brg : LngLat → LngLat → ℚ) (cumul : List ℚ) (c : List LngLat)
    (L : ℚ) (distMeters : ℚ) : ℚ :=
  let d := wrapDistance L distMeters
  if d ≤ 0 then brg (c.getD 0 (0, 0)) (c.getD 1 (0, 0))
  else if L ≤ d then brg (c.getD (c.length - 2) (0, 0)) (c.getD (c.length - 1) (0, 0))
  else
    let i := bracketIndex d cumul
    brg (c.getD i (0, 0)) (c.getD (i + 1) (0, 0))

/-- `RouteInterpolator` from `routeInterpolation.ts`. -/
structure RouteInterpolator where
  totalLengthMeters : ℚ
  pointAt : ℚ → LngLat
  bearingAt : ℚ → ℚ

/-- `createRouteInterpolator` from `routeInterpolation.ts`: `null` for a
degenerate polyline (<2 points), else the interpolator over the
precomputed cumulative distances.  The session cache keyed by
length/first/last point is memoization of this same computation and is
modelled as pure recomputation. -/
def createRouteInterpolator (hav brg : LngLat → LngLat → ℚ)
    (coords : List LngLat) : Option RouteInterpolator :=
  if coords.length < 2 then none
  else
    let cumul := cumulativeDistances hav coords
    let totalLengthMeters := cumul.getLastD 0
    some
      { totalLengthMeters := totalLengthMeters
        pointAt := fun distMeters => pointAtCore cumul coords totalLengthMeters distMeters
        bearingAt := fun distMeters =>
          bearingAtCore brg cumul coords totalLengthMeters distMeters }

/-- The wrapped distance is the canonical representative in `[0, L)`:
`L * fract(x / L)`.  The `trunc`-based JS `%` plus the negative-wrap
correction together implement floor-mod. -/
theorem wrapDistance_eq_fract (L x : ℚ) (hL : 0 < L) :
    wrapDistance L x = L * Int.fract (x / L) := by
  have hL0 : L ≠ 0 := ne_of_gt hL
  have hfract : L * Int.fract (x / L) = x - L * (⌊x / L⌋ : ℚ) := by
    rw [Int.fract, mul_sub, mul_comm L (x / L), div_mul_cancel₀ x hL0]
  unfold wrapDistance jsMod jsTrunc
  by_cases h0 : 0 ≤ x / L
  · rw [if_pos h0]
    have hnn : 0 ≤ L * Int.fract (x / L) :=
      mul_nonneg hL.le (Int.fract_nonneg _)
    rw [hfract] at hnn
    rw [if_neg (not_lt.mpr hnn), ← hfract]
  · rw [if_neg h0]
    by_cases hfz : Int.fract (x / L) = 0
    · have hint : x / L = (⌊x / L⌋ : ℚ) := by
        have h' : x / L - (⌊x / L⌋ : ℚ) = 0 := hfz
        linarith
      have hceil : ⌈x / L⌉ = ⌊x / L⌋ := by
        rw [hint, Int.ceil_intCast, Int.floor_intCast]
      have hzero : x - L * (⌈x / L⌉ : ℚ) = 0 := by
        rw [hceil, ← hfract, hfz, mul_zero]
      rw [hzero]
      rw [if_neg (lt_irrefl 0), hfz, mul_zero]
    · have hfpos : 0 < Int.fract (x / L) :=
        lt_of_le_of_ne (Int.fract_nonneg _) (Ne.symm hfz)
      have hlt : (⌊x / L⌋ : ℚ) < x / L := by
        have h' : Int.fract (x / L) = x / L - (⌊x / L⌋ : ℚ) := rfl
        linarith [hfpos, h'.symm.le]
      have hceil : ⌈x / L⌉ = ⌊x / L⌋ + 1 := by
        have h1 : ⌈x / L⌉ ≤ ⌊x / L⌋ + 1 := by
          apply Int.ceil_le.mpr
          push_cast
          exact (Int.lt_floor_add_one _).le
        have h2 : ⌊x / L⌋ < ⌈x / L⌉ := by
          have h3 : (⌊x / L⌋ : ℚ) < (⌈x / L⌉ : ℚ) := lt_of_lt_of_le hlt (Int.le_ceil _)
          exact_mod_cast h3
        omega
      have hval : x - L * (⌈x / L⌉ : ℚ) = L * Int.fract (x / L) - L := by
        rw [hceil, hfract]
        push_cast
        ring
      rw [hval]
      have hneg : L * Int.fract (x / L) - L < 0 := by
        have := Int.fract_lt_one (x / L)
        nlinarith
      rw [if_pos hneg]
      ring

/-- Adding the total length to the queried distance leaves the wrapped
distance unchanged. -/
theorem wrapDistance_add_total (L x : ℚ) (hL : 0 < L) :
    wrapDistance L (x + L) = wrapDistance L x := by
  rw [wrapDistance_eq_fract L (x + L) hL, wrapDistance_eq_fract L x hL]
  have hdiv : (x + L) / L = x / L + 1 := by
    rw [add_div, div_self (ne_of_gt hL)]
  rw [hdiv, show (1 : ℚ) = ((1 : ℤ) : ℚ) by norm_num, Int.fract_add_int]

/-- Wrapping 0 gives 0. -/
theorem wrapDistance_zero (L : ℚ) : wrapDistance L 0 = 0 := by
  simp [wrapDistance, jsMod, jsTrunc]

/-- Wrapping the total length itself gives 0 (the loop closes). -/
theorem wrapDistance_total (L : ℚ) : wrapDistance L L = 0 := by
  by_cases hL0 : L = 0
  · subst hL0
    simp [wrapDistance, jsMod, jsTrunc]
  · simp [wrapDistance, jsMod, jsTrunc, div_self hL0]

/-- C5: interpolator periodicity — for every polyline of ≥2 points whose
total length is positive and every distance `d` (negative included),
`pointAt (d + L) = pointAt d` for the interpolator returned by
`createRouteInterpolator`, because the distance is wrapped modulo `L` with
negative-wrap correction. -/
theorem routeInterpolator_pointAt_periodic
    (hav brg : LngLat → LngLat → ℚ) (coords : List LngLat) (d : ℚ)
    (h2 : 2 ≤ coords.length)
    (hL : 0 < (cumulativeDistances hav coords).getLastD 0) :
    (createRouteInterpolator hav brg coords).map
        (fun itp => itp.pointAt (d + itp.totalLengthMeters)) =
      (createRouteInterpolator hav brg coords).map (fun itp => itp.pointAt d) := by
  unfold createRouteInterpolator
  rw [if_neg (by omega)]
  simp only [Option.map_some']
  unfold pointAtCore
  rw [wrapDistance_add_total _ _ hL]

/-- A concrete open polyline: two distinct vertices. -/
def sampleLine : List LngLat := [(0, 0), (1, 0)]

/-- Witness for C5: the two-point line with unit segment distances, at the
negative query distance `-5`. -/
theorem routeInterpolator_pointAt_periodic_witness :
    2 ≤ sampleLine.length ∧
    0 < (cumulativeDistances (fun _ _ => 1) sampleLine).getLastD 0 ∧
    (createRouteInterpolator (fun _ _ => 1) (fun _ _ => 0) sampleLine).map
        (fun itp => itp.pointAt (-5 + itp.totalLengthMeters)) =
      (createRouteInterpolator (fun _ _ => 1) (fun _ _ => 0) sampleLine).map
        (fun itp => itp.pointAt (-5)) :=
  ⟨by simp [sampleLine],
   by simp [cumulativeDistances, cumulAux, sampleLine],
   routeInterpolator_pointAt_periodic (fun _ _ => 1) (fun _ _ => 0) sampleLine (-5)
     (by simp [sampleLine])
     (by simp [cumulativeDistances, cumulAux, sampleLine])⟩

/-- C7 counterexample: on the open two-vertex polyline `[(0,0), (1,0)]`
with unit segment distances, `pointAt` at the total length returns the
first vertex `(0,0)`, which differs from the last vertex `(1,0)` — so
"pointAt(L) equals the last vertex" fails as stated. -/
theorem pointAt_total_length_ne_last :
    (createRouteInterpolator (fun _ _ => 1) (fun _ _ => 0) sampleLine).map
        (fun itp => itp.pointAt itp.totalLengthMeters) =
      some ((0 : ℚ), (0 : ℚ)) ∧
    sampleLine.getLastD (0, 0) = ((1 : ℚ), (0 : ℚ)) ∧
    ((0 : ℚ), (0 : ℚ)) ≠ ((1 : ℚ), (0 : ℚ)) := by
  refine ⟨?_, by simp [sampleLine], by decide⟩
  unfold createRouteInterpolator
  rw [if_neg (by simp [sampleLine])]
  simp only [Option.map_some']
  unfold pointAtCore
  rw [wrapDistance_total]
  simp [pointAtWrapped, sampleLine]

/-- C7 amended: for a polyline of positive total length, `pointAt 0` is
exactly the first polyline vertex, and `pointAt L` wraps to the first
vertex as well (the route is treated as a loop); it therefore equals the
last vertex exactly when the polyline is closed (last vertex = first
vertex).  The positive-length hypothesis keeps the statement inside the
regime where the rational model of JS `%` is exact (on a zero-length
polyline the source would compute `0 % 0 = NaN`). -/
theorem routeInterpolator_pointAt_endpoints
    (hav brg : LngLat → LngLat → ℚ) (coords : List LngLat)
    (h2 : 2 ≤ coords.length)
    (hL : 0 < (cumulativeDistances hav coords).getLastD 0) :
    (createRouteInterpolator hav brg coords).map (fun itp => itp.pointAt 0) =
      some (coords.headD (0, 0)) ∧
    (createRouteInterpolator hav brg coords).map
        (fun itp => itp.pointAt itp.totalLengthMeters) =
      some (coords.headD (0, 0)) ∧
    (coords.getLastD (0, 0) = coords.headD (0, 0) →
      (createRouteInterpolator hav brg coords).map
          (fun itp => itp.pointAt itp.totalLengthMeters) =
        some (coords.getLastD (0, 0))) := by
  have hfirst :
      (createRouteInterpolator hav brg coords).map (fun itp => itp.pointAt 0) =
        some (coords.headD (0, 0)) := by
    unfold createRouteInterpolator
    rw [if_neg (by omega)]
    simp only [Option.map_some']
    unfold pointAtCore
    rw [wrapDistance_zero]
    simp [pointAtWrapped]
  have htotal :
      (createRouteInterpolator hav brg coords).map
          (fun itp => itp.pointAt itp.totalLengthMeters) =
        some (coords.headD (0, 0)) := by
    unfold createRouteInterpolator
    rw [if_neg (by omega)]
    simp only [Option.map_some']
    unfold pointAtCore
    rw [wrapDistance_total]
    simp [pointAtWrapped]
  exact ⟨hfirst, htotal, fun hclosed => by rw [htotal, hclosed]⟩

/-- A concrete closed polyline (last vertex = first vertex). -/
def sampleLoop : List LngLat := [(0, 0), (1, 0), (0, 0)]

/-- Witness for the amended C7 at the closed three-vertex polyline with
unit segment distances (total length 2). -/
theorem routeInterpolator_pointAt_endpoints_witness :
    2 ≤ sampleLoop.length ∧
    0 < (cumulativeDistances (fun _ _ => 1) sampleLoop).getLastD 0 ∧
    ((createRouteInterpolator (fun _ _ => 1) (fun _ _ => 0) sampleLoop).map
        (fun itp => itp.pointAt 0) = some (sampleLoop.headD (0, 0)) ∧
     (createRouteInterpolator (fun _ _ => 1) (fun _ _ => 0) sampleLoop).map
        (fun itp => itp.pointAt itp.totalLengthMeters) = some (sampleLoop.headD (0, 0)) ∧
     (sampleLoop.getLastD (0, 0) = sampleLoop.headD (0, 0) →
       (createRouteInterpolator (fun _ _ => 1) (fun _ _ => 0) sampleLoop).map
          (fun itp => itp.pointAt itp.totalLengthMeters) =
         some (sampleLoop.getLastD (0, 0)))) :=
  ⟨by simp [sampleLoop],
   by simp [cumulativeDistances, cumulAux, sampleLoop],
   routeInterpolator_pointAt_endpoints (fun _ _ => 1) (fun _ _ => 0) sampleLoop
     (by simp [sampleLoop])
     (by simp [cumulativeDistances, cumulAux, sampleLoop])⟩

/-- `dist2` from `journeyMapSources.ts`: squared planar distance between a
polyline vertex `[lng, lat]` and a coordinate. -/
def dist2 (a : LngLat) (b : Coordinate) : ℚ :=
  let dlat := a.2 - b.lat
  let dlon := a.1 - b.lon
  dlat * dlat + dlon * dlon

/-- The scanning loop of `closestIndex` (`for (let i = 1; ...)`): carries
the current best index and its squared distance, strict `<` update. -/
def closestAux (p : Coordinate) : List LngLat → ℕ → ℚ → ℕ → ℕ
  | [], best, _, _ => best
  | x :: rest, best, bestD, i =>
    if dist2 x p < bestD then closestAux p rest i (dist2 x p) (i + 1)
    else closestAux p rest best bestD (i + 1)

/-- `closestIndex` from `journeyMapSources.ts`: the index of the vertex of
`line` nearest to `p` (first minimum wins).  The source never calls it on
an empty line (where the JS would read `line[0]` as `undefined`); the
embedding returns 0 there. -/
def closestIndex (line : List LngLat) (p : Coordinate) : ℕ :=
  match line with
  | [] => 0
  | x :: rest => closestAux p rest 0 (dist2 x p) 1

/-- JavaScript `Array.prototype.slice(start, stop)` for in-range indices:
the elements at positions `start ≤ k < stop`. -/
def jsSlice (l : List LngLat) (start stop : ℕ) : List LngLat :=
  (l.take stop).drop start

/-- `sliceRouteLine` from `journeyMapSources.ts`: slice between the two
nearest vertex indices, reversing when the from-index is after the
to-index. -/
def sliceRouteLine (line : List LngLat) (A B : Coordinate) : List LngLat :=
  let i := closestIndex line A
  let j := closestIndex line B
  if i ≤ j then jsSlice line i (j + 1)
  else (jsSlice line j (i + 1)).reverse

/-- The `closestIndex` scan never leaves the index range it has seen. -/
theorem closestAux_lt (p : Coordinate) (rest : List LngLat) :
    ∀ best bestD i, best < i → closestAux p rest best bestD i < i + rest.length := by
  induction rest with
  | nil =>
    intro best bestD i h
    simpa [closestAux] using h
  | cons x xs ih =>
    intro best bestD i h
    simp only [closestAux, List.length_cons]
    by_cases hc : dist2 x p < bestD
    · rw [if_pos hc]
      have := ih i (dist2 x p) (i + 1) (by omega)
      omega
    · rw [if_neg hc]
      have := ih best bestD (i + 1) (by omega)
      omega

/-- `closestIndex` returns a valid index of a non-empty line. -/
theorem closestIndex_lt_length (line : List LngLat) (p : Coordinate)
    (h : line ≠ []) : closestIndex line p < line.length := by
  cases line with
  | nil => exact absurd rfl h
  | cons x rest =>
    simp only [closestIndex, List.length_cons]
    have := closestAux_lt p rest 0 (dist2 x p) 1 (by omega)
    omega

/-- First element of an in-range JS slice. -/
theorem jsSlice_head? (l : List LngLat) (i j : ℕ) (hij : i ≤ j)
    (hi : i < l.length) : (jsSlice l i (j + 1)).head? = l[i]? := by
  unfold jsSlice
  rw [List.head?_drop, List.getElem?_take, if_pos (by omega)]

/-- Last element of an in-range JS slice. -/
theorem jsSlice_getLast? (l : List LngLat) (i j : ℕ) (hij : i ≤ j)
    (hj : j < l.length) : (jsSlice l i (j + 1)).getLast? = l[j]? := by
  unfold jsSlice
  rw [List.getLast?_eq_getElem?]
  have hlen : ((l.take (j + 1)).drop i).length = j + 1 - i := by
    simp only [List.length_drop, List.length_take]
    omega
  rw [hlen, List.getElem?_drop, show i + (j + 1 - i - 1) = j by omega,
    List.getElem?_take, if_pos (by omega)]

/-- A list with at most one element is its own reverse. -/
theorem reverse_of_length_le_one {α : Type} {l : List α} (h : l.length ≤ 1) :
    l.reverse = l := by
  cases l with
  | nil => rfl
  | cons a t =>
    cases t with
    | nil => rfl
    | cons b t' => simp only [List.length_cons] at h; omega

/-- A single-index JS slice has at most one element. -/
theorem jsSlice_single_len (l : List LngLat) (i : ℕ) :
    (jsSlice l i (i + 1)).length ≤ 1 := by
  unfold jsSlice
  simp only [List.length_drop, List.length_take]
  omega

/-- C6: slice direction invariant — for a non-empty polyline,
`sliceRouteLine line A B` is the reverse of `sliceRouteLine line B A`, the
two slices have equal length, and the output proceeds from A's nearest
vertex to B's nearest vertex. -/
theorem sliceRouteLine_direction
    (l : List LngLat) (hne : l ≠ []) (A B : Coordinate) :
    sliceRouteLine l A B = (sliceRouteLine l B A).reverse ∧
    (sliceRouteLine l A B).length = (sliceRouteLine l B A).length ∧
    (sliceRouteLine l A B).head? = l[(closestIndex l A)]? ∧
    (sliceRouteLine l A B).getLast? = l[(closestIndex l B)]? := by
  have hA := closestIndex_lt_length l A hne
  have hB := closestIndex_lt_length l B hne
  unfold sliceRouteLine
  by_cases hij : closestIndex l A ≤ closestIndex l B
  · by_cases hji : closestIndex l B ≤ closestIndex l A
    · have heq : closestIndex l A = closestIndex l B := le_antisymm hij hji
      rw [if_pos hij, if_pos hji, heq]
      refine ⟨(reverse_of_length_le_one (jsSlice_single_len _ _)).symm, ?_, ?_, ?_⟩
      · rfl
      · exact jsSlice_head? l _ _ le_rfl (heq ▸ hA)
      · exact jsSlice_getLast? l _ _ le_rfl hB
    · rw [if_pos hij, if_neg hji]
      refine ⟨(List.reverse_reverse _).symm, by simp, ?_, ?_⟩
      · exact jsSlice_head? l _ _ hij hA
      · exact jsSlice_getLast? l _ _ hij hB
  · have hji : closestIndex l B ≤ closestIndex l A := le_of_not_le hij
    rw [if_neg hij, if_pos hji]
    refine ⟨rfl, by simp, ?_, ?_⟩
    · rw [List.head?_reverse]
      exact jsSlice_getLast? l _ _ hji hA
    · rw [List.getLast?_reverse]
      exact jsSlice_head? l _ _ hji hB

/-- Witness for C6 on the concrete two-vertex line with concrete query
points. -/
theorem sliceRouteLine_direction_witness :
    sampleLine ≠ [] ∧
    (sliceRouteLine sampleLine ⟨0, 0⟩ ⟨0, 1⟩ =
        (sliceRouteLine sampleLine ⟨0, 1⟩ ⟨0, 0⟩).reverse ∧
     (sliceRouteLine sampleLine ⟨0, 0⟩ ⟨0, 1⟩).length =
        (sliceRouteLine sampleLine ⟨0, 1⟩ ⟨0, 0⟩).length ∧
     (sliceRouteLine sampleLine ⟨0, 0⟩ ⟨0, 1⟩).head? =
        sampleLine[(closestIndex sampleLine ⟨0, 0⟩)]? ∧
     (sliceRouteLine sampleLine ⟨0, 0⟩ ⟨0, 1⟩).getLast? =
        sampleLine[(closestIndex sampleLine ⟨0, 1⟩)]?) :=
  ⟨by simp [sampleLine],
   sliceRouteLine_direction sampleLine (by simp [sampleLine]) ⟨0, 0⟩ ⟨0, 1⟩⟩

/-- The `p2p-express` polyline from `src/data/routePolylines.ts`. -/
def p2pExpressLine : List LngLat :=
  [(-79.0478, 35.9105), (-79.0470, 35.9088), (-79.0479, 35.9069),
   (-79.0558, 35.9132), (-79.0465, 35.9045)]

/-- The `baity-hill` polyline from `src/data/routePolylines.ts`. -/
def baityHillLine : List LngLat :=
  [(-79.0438, 35.8999), (-79.0400, 35.8970), (-79.0450, 35.9035)]

/-- `ROUTE_POLYLINES` from `src/data/routePolylines.ts` as a lookup; an
unknown route id yields `none` (the JS record lookup gives `undefined`). -/
def ROUTE_POLYLINES (id : String) : Option (List LngLat) :=
  if id = "p2p-express" then some p2pExpressLine
  else if id = "baity-hill" then some baityHillLine
  else none

/-- GeoJSON geometry as used by `journeyMapSources.ts`: a line string or a
point. -/
inductive Geometry where
  | lineString (coordinates : List LngLat)
  | point (coordinates : List ℚ)
  deriving DecidableEq

/-- A GeoJSON feature (`type: 'Feature'` is implicit in the constructor);
properties are the string-valued entries the adapter actually writes. -/
structure GeoJSONFeature where
  geometry : Geometry
  properties : List (String × String)
  deriving DecidableEq

/-- A GeoJSON feature collection (`type: 'FeatureCollection'` implicit). -/
structure FeatureCollection where
  features : List GeoJSONFeature
  deriving DecidableEq

/-- `JourneyMapSources` from `journeyMapSources.ts`. -/
structure JourneyMapSources where
  walkGeoJson : FeatureCollection
  busGeoJson : FeatureCollection
  destinationGeoJson : Option FeatureCollection
  deriving DecidableEq

/-- `emptyFC` from `journeyMapSources.ts`. -/
def emptyFC : FeatureCollection := ⟨[]⟩

/-- `seg.routeId || 'p2p-express'`: JS `||` treats a missing or empty
string as falsy. -/
def segRouteId (seg : JourneySegment) : String :=
  match seg.routeId with
  | some s => if s = "" then "p2p-express" else s
  | none => "p2p-express"

/-- The straight `[from, to]` coordinates of a segment. -/
def segmentCoords (seg : JourneySegment) : List LngLat :=
  [(seg.fromCoords.lon, seg.fromCoords.lat), (seg.toCoords.lon, seg.toCoords.lat)]

/-- Bus-segment coordinates: slice the known route polyline between the
boarding and alighting coordinates, falling back to the straight segment
when the polyline is unknown or the slice has fewer than 2 points. -/
def busCoords (seg : JourneySegment) : List LngLat :=
  match ROUTE_POLYLINES (segRouteId seg) with
  | some routeLine =>
    let s := sliceRouteLine routeLine seg.fromCoords seg.toCoords
    if s.length < 2 then segmentCoords seg else s
  | none => segmentCoords seg

/-- A walk segment's dashed line feature (empty properties). -/
def walkFeature (seg : JourneySegment) : GeoJSONFeature :=
  ⟨Geometry.lineString (segmentCoords seg), []⟩

/-- A bus segment's solid line feature carrying its route id. -/
def busFeature (seg : JourneySegment) : GeoJSONFeature :=
  ⟨Geometry.lineString (busCoords seg), [("routeId", segRouteId seg)]⟩

/-- `journeyToMapSources` from `journeyMapSources.ts`: empty collections
for a null journey or no segments; otherwise walk features, bus features
(route-sliced) and the destination point feature.  The single pass pushing
into two arrays is rendered as two order-preserving filters. -/
def journeyToMapSources (journey : Option Journey) : JourneyMapSources :=
  match journey with
  | none => ⟨emptyFC, emptyFC, none⟩
  | some j =>
    if j.segments.length = 0 then ⟨emptyFC, emptyFC, none⟩
    else
      { walkGeoJson :=
          ⟨(j.segments.filter fun s => s.type == SegmentType.walk).map walkFeature⟩
        busGeoJson :=
          ⟨(j.segments.filter fun s => !(s.type == SegmentType.walk)).map busFeature⟩
        destinationGeoJson :=
          some ⟨[⟨Geometry.point [j.destination.lon, j.destination.lat],
                  [("name", j.destination.name)]⟩]⟩ }

/-- C8: degenerate-input safety of the map adapter — a null journey or a
journey with no segments yields feature collections whose `features`
arrays are empty and no destination point, never a crash value. -/
theorem journeyToMapSources_degenerate :
    journeyToMapSources none =
      ⟨⟨[]⟩, ⟨[]⟩, none⟩ ∧
    ∀ j : Journey, j.segments.length = 0 →
      journeyToMapSources (some j) = ⟨⟨[]⟩, ⟨[]⟩, none⟩ := by
  refine ⟨rfl, ?_⟩
  intro j h
  simp [journeyToMapSources, h, emptyFC]

/-- A journey value with an empty segment list. -/
def emptySegJourney : Journey :=
  { id := "journey-0"
    destination := sampleDest
    totalDurationMin := 0
    segments := []
    startTime := 0
    arrivalTime := 0 }

/-- Witness for C8 at a concrete segment-free journey. -/
theorem journeyToMapSources_degenerate_witness :
    emptySegJourney.segments.length = 0 ∧
    journeyToMapSources (some emptySegJourney) = ⟨⟨[]⟩, ⟨[]⟩, none⟩ :=
  ⟨rfl, (journeyToMapSources_degenerate).2 emptySegJourney rfl⟩

/-- `RecentSearchItem` from `recentSearches.ts`; `timestamp` is ms since
the epoch. -/
structure RecentSearchItem where
  label : String
  address : Option String
  timestamp : ℤ
  lat : Option ℚ
  lon : Option ℚ
  deriving DecidableEq

/-- `MAX_ITEMS = 8` from `recentSearches.ts`. -/
def MAX_ITEMS : ℕ := 8

/-- `dedupeKey` from `recentSearches.ts`: trim + lowercase the label and
the (possibly missing) address; join with `|` when the address is
non-empty. -/
def dedupeKey (item : RecentSearchItem) : String :=
  let name := item.label.trim.toLower
  let addr := (item.address.getD "").trim.toLower
  if addr = "" then name else name ++ "|" ++ addr

/-- `addRecentSearch` from `recentSearches.ts`, with the `localStorage`
round-trip made explicit: `stored` is the currently persisted list, `ts`
is `Date.now()`, `cutoff` the 14-day expiry cutoff; returns the list that
is written back.  Expired entries are dropped, entries with the new item's
key removed, the new item goes to the front, and the list is truncated to
`MAX_ITEMS`. -/
def addRecentSearch (item : RecentSearchItem) (ts : ℤ) (cutoff : ℤ)
    (stored : List RecentSearchItem) : List RecentSearchItem :=
  let next : RecentSearchItem := { item with timestamp := ts }
  let existing := stored.filter fun i => cutoff ≤ i.timestamp
  let nextKey := dedupeKey next
  let without := existing.filter fun i => !(dedupeKey i == nextKey)
  (next :: without).take MAX_ITEMS

/-- C9: recent-search dedupe-to-front — adding the same normalized
`(name, address)` key twice leaves exactly one entry with that key, at the
front, carrying the latest add's timestamp, and the stored list never
exceeds 8 entries. -/
theorem addRecentSearch_shape (item : RecentSearchItem) (ts cutoff : ℤ)
    (stored : List RecentSearchItem) :
    ∃ w : List RecentSearchItem,
      addRecentSearch item ts cutoff stored =
        (({ item with timestamp := ts } : RecentSearchItem) :: w).take MAX_ITEMS ∧
      ∀ e ∈ w, (dedupeKey e == dedupeKey item) = false := by
  refine ⟨_, rfl, ?_⟩
  intro e he
  have h1 := List.of_mem_filter he
  simpa using h1

/-- C9: recent-search dedupe-to-front — adding the same normalized
`(name, address)` key twice leaves exactly one entry with that key, at the
front, carrying the latest add's timestamp, and the stored list never
exceeds 8 entries. -/
theorem addRecentSearch_dedupe_front
    (stored : List RecentSearchItem) (i₁ i₂ : RecentSearchItem)
    (ts₁ ts₂ cut₁ cut₂ : ℤ)
    (hkey : dedupeKey i₁ = dedupeKey i₂) :
    ((addRecentSearch i₂ ts₂ cut₂ (addRecentSearch i₁ ts₁ cut₁ stored)).filter
        fun e => dedupeKey e == dedupeKey i₂).length = 1 ∧
    (addRecentSearch i₂ ts₂ cut₂ (addRecentSearch i₁ ts₁ cut₁ stored)).head? =
      some { i₂ with timestamp := ts₂ } ∧
    (addRecentSearch i₂ ts₂ cut₂ (addRecentSearch i₁ ts₁ cut₁ stored)).length ≤ 8 := by
  obtain ⟨w, hw, hwkey⟩ :=
    addRecentSearch_shape i₂ ts₂ cut₂ (addRecentSearch i₁ ts₁ cut₁ stored)
  rw [hw]
  have htake : ∀ e ∈ w.take (MAX_ITEMS - 1), (dedupeKey e == dedupeKey i₂) = false :=
    fun e he => hwkey e (List.mem_of_mem_take he)
  have hnil : (w.take (MAX_ITEMS - 1)).filter
      (fun e => dedupeKey e == dedupeKey i₂) = [] := by
    rw [List.filter_eq_nil_iff]
    intro e he
    simp [htake e he]
  have hkey₂ : dedupeKey { i₂ with timestamp := ts₂ } = dedupeKey i₂ := rfl
  refine ⟨?_, ?_, ?_⟩
  · rw [show MAX_ITEMS = (MAX_ITEMS - 1) + 1 from rfl, List.take_succ_cons,
      List.filter_cons]
    have ht : (dedupeKey { i₂ with timestamp := ts₂ } == dedupeKey i₂) = true := by
      simp [hkey₂]
    rw [if_pos ht, hnil]
    rfl
  · rw [show MAX_ITEMS = (MAX_ITEMS - 1) + 1 from rfl, List.take_succ_cons]
    rfl
  · exact List.length_take_le _ _

/-- A concrete recent-search item. -/
def sampleItem : RecentSearchItem := ⟨"Cafe", none, 0, none, none⟩

/-- Witness for C9: the same item added twice to an empty store. -/
theorem addRecentSearch_dedupe_front_witness :
    dedupeKey sampleItem = dedupeKey sampleItem ∧
    (((addRecentSearch sampleItem 2 0 (addRecentSearch sampleItem 1 0 [])).filter
        fun e => dedupeKey e == dedupeKey sampleItem).length = 1 ∧
     (addRecentSearch sampleItem 2 0 (addRecentSearch sampleItem 1 0 [])).head? =
       some { sampleItem with timestamp := 2 } ∧
     (addRecentSearch sampleItem 2 0 (addRecentSearch sampleItem 1 0 [])).length ≤ 8) :=
  ⟨rfl, addRecentSearch_dedupe_front [] sampleItem sampleItem 1 2 0 0 rfl⟩

end P2PLive
